import Mathlib

/-!
Shallow embedding of the adaptive-difficulty core of the math-adaptive
prototype: the decision policies of `src/adaptive_engine.py`, the metrics
aggregation of `src/tracker.py`, and the offline feature extraction and
training entry points of `src/ml_model.py` / `src/adaptive_engine.py`.

Python floats are modelled as exact rationals (`ℚ`); dictionaries of the
fixed shapes used by the code become structures; a classifier is a function
from the feature vector to either a probability or a raised exception.
-/

namespace AdaptiveProto

/-- Difficulty level of a puzzle: the three string values `"Easy"`,
`"Medium"`, `"Hard"` the code compares against. -/
inductive Difficulty
  | Easy
  | Medium
  | Hard
deriving DecidableEq, Repr

/-- The adaptation action returned by every decision function:
`"increase"`, `"maintain"` or `"decrease"`. -/
inductive Action
  | increase
  | maintain
  | decrease
deriving DecidableEq, Repr

/-- The slice of the `performance_metrics` dictionary read by the decision
functions of `AdaptiveEngine` (`accuracy`, `avg_response_time`,
`consecutive_correct`, `recent_accuracy`). -/
structure Metrics where
  accuracy : ℚ
  avg_response_time : ℚ
  consecutive_correct : ℚ
  recent_accuracy : ℚ
deriving DecidableEq, Repr

/-- `AdaptiveEngine._get_action_rule_based`.  The Python returns inside the
guarded branches; a guard that holds while the difficulty test fails falls
through to the next check, which the flattened conjunctions reproduce. -/
def get_action_rule_based (m : Metrics) (current_difficulty : Difficulty) : Action :=
  if (m.accuracy ≥ 80 ∧ m.avg_response_time ≤ 5 ∧ m.consecutive_correct ≥ 2)
      ∧ current_difficulty ≠ Difficulty.Hard then
    Action.increase
  else if (m.accuracy < 60 ∨ m.avg_response_time ≥ 8)
      ∧ current_difficulty ≠ Difficulty.Easy then
    Action.decrease
  else
    Action.maintain

/-- Result of `self.model.predict_proba(features)[0][1]`: either a returned
probability or a raised exception (caught by the `except` clause). -/
inductive PredictResult
  | ok (p : ℚ)
  | exn
deriving DecidableEq, Repr

/-- A classifier as `_get_action_ml_based` sees it: a map from the
4-component feature vector to a prediction outcome. -/
def Classifier : Type := List ℚ → PredictResult

/-- The feature vector built at lines 140–145 of `adaptive_engine.py`. -/
def inference_features (m : Metrics) : List ℚ :=
  [m.accuracy, m.avg_response_time, m.consecutive_correct, m.recent_accuracy]

/-- `AdaptiveEngine._get_action_ml_based`: extract features, query the
model (falling back to the rule-based action when prediction raises), then
the safety check and the probability cut points, in source order. -/
def get_action_ml_based (model : Classifier) (m : Metrics)
    (current_difficulty : Difficulty) : Action :=
  match model (inference_features m) with
  | PredictResult.exn => get_action_rule_based m current_difficulty
  | PredictResult.ok probability =>
    if m.accuracy < 50 ∧ current_difficulty ≠ Difficulty.Easy then
      Action.decrease
    else if probability > 0.6 ∧ current_difficulty ≠ Difficulty.Hard then
      Action.increase
    else if probability < 0.4 ∧ current_difficulty ≠ Difficulty.Easy then
      Action.decrease
    else
      Action.maintain

/-- The engine's `mode` constructor argument. -/
inductive Mode
  | rule_based
  | ml_based
deriving DecidableEq, Repr

/-- The state of an `AdaptiveEngine` instance that `get_next_action`
consults: its mode, whether a trained model is loaded, and the model. -/
structure EngineState where
  mode : Mode
  is_trained : Bool
  model : Classifier

/-- `AdaptiveEngine.get_next_action`: dispatch on mode, falling back to the
rule-based policy when the ML model is not trained. -/
def get_next_action (e : EngineState) (m : Metrics)
    (current_difficulty : Difficulty) : Action :=
  match e.mode with
  | Mode.rule_based => get_action_rule_based m current_difficulty
  | Mode.ml_based =>
    if e.is_trained then get_action_ml_based e.model m current_difficulty
    else get_action_rule_based m current_difficulty

/-- `HybridAdaptiveEngine.get_next_action`: compute both actions, return
the common one on agreement, and on disagreement trust the ML action only
for a trained model with `rule_action == "maintain"` and accuracy in the
closed band `[70, 85]`. -/
def hybrid_get_next_action (e : EngineState) (m : Metrics)
    (current_difficulty : Difficulty) : Action :=
  let rule_action := get_action_rule_based m current_difficulty
  let ml_action := if e.is_trained then
      get_action_ml_based e.model m current_difficulty
    else rule_action
  if rule_action = ml_action then
    rule_action
  else if e.is_trained ∧ rule_action = Action.maintain
      ∧ 70 ≤ m.accuracy ∧ m.accuracy ≤ 85 then
    ml_action
  else
    rule_action

/-! Embedding of `src/tracker.py`. -/

/-- The fields of a stored response record that the metrics computations
read: `is_correct`, `response_time` and `difficulty`. -/
structure Response where
  is_correct : Bool
  response_time : ℚ
  difficulty : Difficulty
deriving DecidableEq, Repr

instance : Inhabited Response := ⟨⟨false, 0, Difficulty.Easy⟩⟩

/-- The running session state of a `PerformanceTracker`. -/
structure TrackerState where
  responses : List Response
  correct_count : ℕ
  incorrect_count : ℕ
  consecutive_correct : ℕ
  max_consecutive_correct : ℕ
  total_response_time : ℚ
deriving Repr

/-- The state of a freshly constructed tracker. -/
def TrackerState.initial : TrackerState := ⟨[], 0, 0, 0, 0, 0⟩

/-- `PerformanceTracker.record_response`: update the counts, the streak and
its running maximum, accumulate the response time, append the record. -/
def record_response (s : TrackerState) (r : Response) : TrackerState :=
  if r.is_correct then
    { s with
      correct_count := s.correct_count + 1,
      consecutive_correct := s.consecutive_correct + 1,
      max_consecutive_correct :=
        max s.max_consecutive_correct (s.consecutive_correct + 1),
      total_response_time := s.total_response_time + r.response_time,
      responses := s.responses ++ [r] }
  else
    { s with
      incorrect_count := s.incorrect_count + 1,
      consecutive_correct := 0,
      total_response_time := s.total_response_time + r.response_time,
      responses := s.responses ++ [r] }

/-- Feeding an event log, in order, to a fresh tracker. -/
def runTracker (events : List Response) : TrackerState :=
  events.foldl record_response TrackerState.initial

/-- The `response_time_trend` values. -/
inductive Trend
  | improving
  | stable
  | slowing
deriving DecidableEq, Repr

/-- The dictionary returned by `PerformanceTracker.get_current_metrics`. -/
structure Snapshot where
  total_questions : ℕ
  correct_count : ℕ
  incorrect_count : ℕ
  accuracy : ℚ
  avg_response_time : ℚ
  consecutive_correct : ℕ
  max_streak : ℕ
  recent_accuracy : ℚ
  response_time_trend : Trend
deriving DecidableEq, Repr

/-- `PerformanceTracker.get_current_metrics`.  Python's `responses[-3:]`
is `drop (length - 3)` and `responses[:-3]` is `take (length - 3)`. -/
def get_current_metrics (s : TrackerState) : Snapshot :=
  let total := s.responses.length
  if total = 0 then
    ⟨0, 0, 0, 0, 0, 0, 0, 0, Trend.stable⟩
  else
    let accuracy := (s.correct_count : ℚ) / total * 100
    let avg_response_time := s.total_response_time / total
    let recent_responses :=
      if 3 ≤ s.responses.length then s.responses.drop (s.responses.length - 3)
      else s.responses
    let recent_correct :=
      (recent_responses.filter (fun r => r.is_correct)).length
    let recent_accuracy :=
      if recent_responses ≠ [] then
        (recent_correct : ℚ) / recent_responses.length * 100
      else 0
    let trend :=
      if 3 ≤ s.responses.length then
        let recent_times :=
          (s.responses.drop (s.responses.length - 3)).map
            (fun r => r.response_time)
        let older_times :=
          (s.responses.take (s.responses.length - 3)).map
            (fun r => r.response_time)
        if older_times ≠ [] then
          let recent_avg := recent_times.sum / recent_times.length
          let older_avg := older_times.sum / older_times.length
          if recent_avg > older_avg * 1.2 then Trend.slowing
          else if recent_avg < older_avg * 0.8 then Trend.improving
          else Trend.stable
        else Trend.stable
      else Trend.stable
    ⟨total, s.correct_count, s.incorrect_count, accuracy, avg_response_time,
      s.consecutive_correct, s.max_consecutive_correct, recent_accuracy,
      trend⟩

/-! Embedding of the feature extraction of `src/ml_model.py` and the
training entry point of `src/adaptive_engine.py`. -/

/-- The streak loop of `MLModelManager.extract_features`: walk the prior
responses in reverse, counting while correct, stopping at the first
incorrect one.  `count_leading_correct` is the loop over the already
reversed list. -/
def count_leading_correct : List Response → ℕ
  | [] => 0
  | r :: rest => if r.is_correct then count_leading_correct rest + 1 else 0

/-- The trailing consecutive-correct streak of a response list. -/
def trailing_streak (l : List Response) : ℕ := count_leading_correct l.reverse

/-- The feature vector `_get_action_ml_based` sends to the classifier, as
a function of the event log: the four `get_current_metrics` fields in the
order of `adaptive_engine.py` lines 140–145. -/
def features_at_inference (events : List Response) : List ℚ :=
  let m := get_current_metrics (runTracker events)
  [m.accuracy, m.avg_response_time, (m.consecutive_correct : ℚ),
    m.recent_accuracy]

/-- The per-position feature vector of `MLModelManager.extract_features`,
as a function of the prior responses `responses[:i]` (lines 74–104 of
`ml_model.py`). -/
def features_at_training (prior : List Response) : List ℚ :=
  let prior_correct := (prior.filter (fun r => r.is_correct)).length
  let prior_total := prior.length
  let recent_responses := prior.drop (prior.length - 3)
  let recent_correct :=
    (recent_responses.filter (fun r => r.is_correct)).length
  let recent_total := recent_responses.length
  let response_times := recent_responses.map (fun r => r.response_time)
  let avg_recent_time :=
    if response_times ≠ [] then
      response_times.sum / response_times.length
    else 0
  let consecutive := trailing_streak prior
  let accuracy :=
    if 0 < prior_total then (prior_correct : ℚ) / prior_total * 100 else 0
  let recent_accuracy :=
    if 0 < recent_total then (recent_correct : ℚ) / recent_total * 100 else 0
  [accuracy, avg_recent_time, (consecutive : ℚ), recent_accuracy]

/-- The body of `MLModelManager.extract_features` for one session: one
`(features, target)` example per position `i ∈ [2, len)`, nothing for
sessions with fewer than 3 responses. -/
def extract_features_session (responses : List Response) :
    List (List ℚ × ℕ) :=
  if responses.length < 3 then []
  else
    (List.range' 2 (responses.length - 2)).map (fun i =>
      (features_at_training (responses.take i),
       if (responses.getD i default).is_correct then 1 else 0))

/-- `MLModelManager.extract_features` over a collection of sessions, each
reduced to its ordered response list. -/
def extract_features (data : List (List Response)) : List (List ℚ × ℕ) :=
  data.foldr (fun session acc => extract_features_session session ++ acc) []

/-- The claim's description of the per-example features: derived from the
prior events using the Metrics Aggregator's recent window (the
`min(3, N)` most-recent events) and its trailing-streak rule (the
tracker's running `consecutive_correct`). -/
def aggregator_rule_features (prior : List Response) : List ℚ :=
  let total := prior.length
  let recent := prior.drop (total - min 3 total)
  [if 0 < total then
      ((prior.filter (fun r => r.is_correct)).length : ℚ) / total * 100
    else 0,
   if 0 < min 3 total then
      (recent.map (fun r => r.response_time)).sum / (min 3 total)
    else 0,
   ((runTracker prior).consecutive_correct : ℚ),
   if 0 < min 3 total then
      ((recent.filter (fun r => r.is_correct)).length : ℚ)
        / (min 3 total) * 100
    else 0]

/-- The `features` dictionary of one element of the `training_data` list
consumed by `AdaptiveEngine.train_model`. -/
structure FeatureDict where
  accuracy : ℚ
  response_time : ℚ
  consecutive_correct : ℚ
  recent_accuracy : ℚ
deriving DecidableEq, Repr

/-- One element of the `training_data` list consumed by
`AdaptiveEngine.train_model`. -/
structure TrainingExample where
  features : FeatureDict
  target : ℕ
deriving DecidableEq, Repr

/-- A cell of the numpy array `X` built by `train_model`.  The expression
`d['features'].values()` yields a `dict_values` view object, which has no
sequence protocol, so `np.array` keeps each one as a single object cell
(yielding an array of `dtype=object`) instead of expanding it into a
numeric row. -/
inductive NpCell
  | num (x : ℚ)
  | dict_values_obj (xs : List ℚ)
deriving DecidableEq, Repr

/-- Whether sklearn's input validation can coerce a cell to a float. -/
def NpCell.coercible : NpCell → Bool
  | NpCell.num _ => true
  | NpCell.dict_values_obj _ => false

/-- `LogisticRegression.fit` applied to `X`: input validation coerces `X`
to a float matrix and raises a `TypeError` on any cell that is not a
number; the logistic optimization itself is only reached on numeric
input. -/
def logistic_fit (X : List NpCell) : Except String Unit :=
  if X.all NpCell.coercible then Except.ok ()
  else
    Except.error
      "TypeError: float() argument must be a string or a real number, not dict_values"

/-- `AdaptiveEngine.train_model` (lines 166–195 of `adaptive_engine.py`):
return `False` on empty data; otherwise build
`X = np.array([d['features'].values() for d in training_data])`, fit the
model, save it and return `True`.  An exception raised by `fit` is not
caught and propagates to the caller, reaching neither the save nor the
accuracy report. -/
def train_model (training_data : List TrainingExample) : Except String Bool :=
  if training_data.isEmpty then Except.ok false
  else
    let X := training_data.map (fun d =>
      NpCell.dict_values_obj
        [d.features.accuracy, d.features.response_time,
         d.features.consecutive_correct, d.features.recent_accuracy])
    match logistic_fit X with
    | Except.error e => Except.error e
    | Except.ok _ => Except.ok true

/-! Helper lemmas characterizing the decision functions. -/

lemma rule_inc_iff (m : Metrics) (d : Difficulty) :
    get_action_rule_based m d = Action.increase ↔
      ((m.accuracy ≥ 80 ∧ m.avg_response_time ≤ 5 ∧ m.consecutive_correct ≥ 2)
        ∧ d ≠ Difficulty.Hard) := by
  unfold get_action_rule_based
  split_ifs with h1 h2 <;> simp_all

lemma rule_dec_iff (m : Metrics) (d : Difficulty) :
    get_action_rule_based m d = Action.decrease ↔
      (¬((m.accuracy ≥ 80 ∧ m.avg_response_time ≤ 5 ∧ m.consecutive_correct ≥ 2)
          ∧ d ≠ Difficulty.Hard)
        ∧ ((m.accuracy < 60 ∨ m.avg_response_time ≥ 8) ∧ d ≠ Difficulty.Easy)) := by
  unfold get_action_rule_based
  split_ifs with h1 h2 <;> simp_all

lemma rule_maintain_iff (m : Metrics) (d : Difficulty) :
    get_action_rule_based m d = Action.maintain ↔
      (¬((m.accuracy ≥ 80 ∧ m.avg_response_time ≤ 5 ∧ m.consecutive_correct ≥ 2)
          ∧ d ≠ Difficulty.Hard)
        ∧ ¬((m.accuracy < 60 ∨ m.avg_response_time ≥ 8) ∧ d ≠ Difficulty.Easy)) := by
  unfold get_action_rule_based
  split_ifs with h1 h2 <;> simp_all

lemma rule_dec_of_low_accuracy (m : Metrics) (d : Difficulty)
    (hacc : m.accuracy < 50) (hd : d ≠ Difficulty.Easy) :
    get_action_rule_based m d = Action.decrease := by
  rw [rule_dec_iff]
  exact ⟨fun h => absurd h.1.1 (by linarith), Or.inl (by linarith), hd⟩

lemma ml_eq_of_exn (model : Classifier) (m : Metrics) (d : Difficulty)
    (h : model (inference_features m) = PredictResult.exn) :
    get_action_ml_based model m d = get_action_rule_based m d := by
  unfold get_action_ml_based
  rw [h]

lemma ml_eq_of_ok (model : Classifier) (m : Metrics) (d : Difficulty) (p : ℚ)
    (h : model (inference_features m) = PredictResult.ok p) :
    get_action_ml_based model m d =
      (if m.accuracy < 50 ∧ d ≠ Difficulty.Easy then Action.decrease
       else if p > 0.6 ∧ d ≠ Difficulty.Hard then Action.increase
       else if p < 0.4 ∧ d ≠ Difficulty.Easy then Action.decrease
       else Action.maintain) := by
  unfold get_action_ml_based
  rw [h]

lemma ml_no_increase_at_hard (model : Classifier) (m : Metrics) :
    get_action_ml_based model m Difficulty.Hard ≠ Action.increase := by
  cases hres : model (inference_features m) with
  | exn =>
    rw [ml_eq_of_exn _ _ _ hres]
    simp [rule_inc_iff]
  | ok p =>
    rw [ml_eq_of_ok _ _ _ _ hres]
    split_ifs with h1 h2 h3 <;> simp_all

lemma ml_no_decrease_at_easy (model : Classifier) (m : Metrics) :
    get_action_ml_based model m Difficulty.Easy ≠ Action.decrease := by
  cases hres : model (inference_features m) with
  | exn =>
    rw [ml_eq_of_exn _ _ _ hres]
    simp [rule_dec_iff]
  | ok p =>
    rw [ml_eq_of_ok _ _ _ _ hres]
    split_ifs with h1 h2 h3 <;> simp_all

lemma hybrid_result_cases (e : EngineState) (m : Metrics) (d : Difficulty) :
    hybrid_get_next_action e m d = get_action_rule_based m d ∨
      hybrid_get_next_action e m d = get_action_ml_based e.model m d := by
  unfold hybrid_get_next_action
  by_cases ht : e.is_trained = true
  · simp only [ht, eq_self_iff_true, if_true, true_and]
    split_ifs <;> simp
  · simp only [Bool.not_eq_true] at ht
    simp [ht]

/-- C1: the Threshold Policy returns `increase` exactly when
`accuracy ≥ 80 ∧ avgResponseTime ≤ 5 ∧ currentStreak ≥ 2` and the level is
not Hard; otherwise `decrease` exactly when
`(accuracy < 60 ∨ avgResponseTime ≥ 8)` and the level is not Easy;
otherwise `maintain`.  In particular the snapshot
`{accuracy: 85, avgResponseTime: 3, currentStreak: 3}` at level Easy
yields `increase`. -/
theorem threshold_policy_characterization (m : Metrics) (d : Difficulty) (ra : ℚ) :
    (get_action_rule_based m d = Action.increase ↔
      (m.accuracy ≥ 80 ∧ m.avg_response_time ≤ 5 ∧ m.consecutive_correct ≥ 2
        ∧ d ≠ Difficulty.Hard)) ∧
    (get_action_rule_based m d = Action.decrease ↔
      (¬(m.accuracy ≥ 80 ∧ m.avg_response_time ≤ 5 ∧ m.consecutive_correct ≥ 2
          ∧ d ≠ Difficulty.Hard)
        ∧ (m.accuracy < 60 ∨ m.avg_response_time ≥ 8) ∧ d ≠ Difficulty.Easy)) ∧
    (get_action_rule_based m d = Action.maintain ↔
      (¬(m.accuracy ≥ 80 ∧ m.avg_response_time ≤ 5 ∧ m.consecutive_correct ≥ 2
          ∧ d ≠ Difficulty.Hard)
        ∧ ¬((m.accuracy < 60 ∨ m.avg_response_time ≥ 8) ∧ d ≠ Difficulty.Easy))) ∧
    get_action_rule_based ⟨85, 3, 3, ra⟩ Difficulty.Easy = Action.increase := by
  refine ⟨?_, ?_, ?_, ?_⟩
  · rw [rule_inc_iff]; tauto
  · rw [rule_dec_iff]; tauto
  · rw [rule_maintain_iff]; tauto
  · rw [rule_inc_iff]
    refine ⟨⟨by norm_num, by norm_num, by norm_num⟩, by simp⟩

/-- C2: for every snapshot with `accuracy < 50` and every level other than
Easy, the Probabilistic Policy (an engine in `ml_based` mode) returns
`decrease` for every classifier output, including a raised exception, and
also when the model is not trained. -/
theorem ml_policy_safety_override (model : Classifier) (trained : Bool)
    (m : Metrics) (d : Difficulty)
    (hacc : m.accuracy < 50) (hd : d ≠ Difficulty.Easy) :
    get_next_action ⟨Mode.ml_based, trained, model⟩ m d = Action.decrease := by
  cases trained with
  | false =>
    show get_action_rule_based m d = Action.decrease
    exact rule_dec_of_low_accuracy m d hacc hd
  | true =>
    show get_action_ml_based model m d = Action.decrease
    cases hres : model (inference_features m) with
    | exn =>
      rw [ml_eq_of_exn _ _ _ hres]
      exact rule_dec_of_low_accuracy m d hacc hd
    | ok p =>
      rw [ml_eq_of_ok _ _ _ _ hres, if_pos ⟨hacc, hd⟩]

/-- Witness for C2 at the snapshot `{accuracy: 40, avgResponseTime: 3,
currentStreak: 2, recentAccuracy: 40}` at level Medium, with a trained
classifier stubbed to return probability 0.9. -/
theorem ml_policy_safety_override_witness :
    (Metrics.mk 40 3 2 40).accuracy < 50 ∧ Difficulty.Medium ≠ Difficulty.Easy ∧
    get_next_action ⟨Mode.ml_based, true, fun _ => PredictResult.ok (9/10)⟩
      ⟨40, 3, 2, 40⟩ Difficulty.Medium = Action.decrease :=
  ⟨by norm_num, by decide,
    ml_policy_safety_override (fun _ => PredictResult.ok (9/10)) true
      ⟨40, 3, 2, 40⟩ Difficulty.Medium (by norm_num) (by decide)⟩

/-- C3: the Hybrid Arbiter returns the common action when the rule-based
and ML-based actions agree; when they differ it returns the ML action
exactly when the model is trained, the rule action is `maintain`, and
accuracy lies in the closed band `[70, 85]`, and the rule action in every
other disagreement case. -/
theorem hybrid_arbiter_characterization (model : Classifier) (trained : Bool)
    (m : Metrics) (d : Difficulty) :
    (get_action_rule_based m d =
        (if trained then get_action_ml_based model m d
         else get_action_rule_based m d) →
      hybrid_get_next_action ⟨Mode.ml_based, trained, model⟩ m d =
        get_action_rule_based m d) ∧
    (get_action_rule_based m d ≠
        (if trained then get_action_ml_based model m d
         else get_action_rule_based m d) →
      ((hybrid_get_next_action ⟨Mode.ml_based, trained, model⟩ m d =
          (if trained then get_action_ml_based model m d
           else get_action_rule_based m d) ↔
        (trained = true ∧ get_action_rule_based m d = Action.maintain
          ∧ 70 ≤ m.accuracy ∧ m.accuracy ≤ 85)) ∧
       (hybrid_get_next_action ⟨Mode.ml_based, trained, model⟩ m d =
          get_action_rule_based m d ↔
        ¬(trained = true ∧ get_action_rule_based m d = Action.maintain
          ∧ 70 ≤ m.accuracy ∧ m.accuracy ≤ 85)))) := by
  unfold hybrid_get_next_action
  cases trained with
  | false => simp
  | true =>
    simp only [eq_self_iff_true, if_true, true_and]
    constructor
    · intro hagree
      rw [if_pos hagree]
    · intro hdis
      rw [if_neg hdis]
      by_cases hcond : get_action_rule_based m d = Action.maintain
          ∧ 70 ≤ m.accuracy ∧ m.accuracy ≤ 85
      · rw [if_pos hcond]
        exact ⟨iff_of_true rfl hcond, iff_of_false (Ne.symm hdis) (not_not_intro hcond)⟩
      · rw [if_neg hcond]
        exact ⟨iff_of_false hdis hcond, iff_of_true rfl hcond⟩

/-- Witness for C3: with a trained classifier stubbed to probability 0.9
and the snapshot `{accuracy: 75, avgResponseTime: 6, currentStreak: 1,
recentAccuracy: 75}` at level Medium, the rule action (`maintain`) and the
ML action (`increase`) disagree and the arbiter returns the ML action. -/
theorem hybrid_arbiter_characterization_witness :
    get_action_rule_based ⟨75, 6, 1, 75⟩ Difficulty.Medium ≠
      (if (true : Bool) then
        get_action_ml_based (fun _ => PredictResult.ok (9/10)) ⟨75, 6, 1, 75⟩
          Difficulty.Medium
       else get_action_rule_based ⟨75, 6, 1, 75⟩ Difficulty.Medium) ∧
    hybrid_get_next_action
        ⟨Mode.ml_based, true, fun _ => PredictResult.ok (9/10)⟩
        ⟨75, 6, 1, 75⟩ Difficulty.Medium =
      (if (true : Bool) then
        get_action_ml_based (fun _ => PredictResult.ok (9/10)) ⟨75, 6, 1, 75⟩
          Difficulty.Medium
       else get_action_rule_based ⟨75, 6, 1, 75⟩ Difficulty.Medium) := by
  have hrule : get_action_rule_based ⟨75, 6, 1, 75⟩ Difficulty.Medium =
      Action.maintain := by
    rw [rule_maintain_iff]
    constructor
    · rintro ⟨⟨h, -, -⟩, -⟩
      norm_num at h
    · rintro ⟨h | h, -⟩ <;> norm_num at h
  have hml : get_action_ml_based (fun _ => PredictResult.ok (9/10))
      ⟨75, 6, 1, 75⟩ Difficulty.Medium = Action.increase := by
    rw [ml_eq_of_ok _ _ _ (9/10) rfl,
      if_neg (by rintro ⟨h, -⟩; norm_num at h),
      if_pos ⟨by norm_num, by decide⟩]
  have hif : (if (true : Bool) then
        get_action_ml_based (fun _ => PredictResult.ok (9/10)) ⟨75, 6, 1, 75⟩
          Difficulty.Medium
       else get_action_rule_based ⟨75, 6, 1, 75⟩ Difficulty.Medium) =
      Action.increase := by
    rw [if_pos rfl, hml]
  have hdis : get_action_rule_based ⟨75, 6, 1, 75⟩ Difficulty.Medium ≠
      (if (true : Bool) then
        get_action_ml_based (fun _ => PredictResult.ok (9/10)) ⟨75, 6, 1, 75⟩
          Difficulty.Medium
       else get_action_rule_based ⟨75, 6, 1, 75⟩ Difficulty.Medium) := by
    rw [hif, hrule]
    decide
  refine ⟨hdis, ?_⟩
  exact ((hybrid_arbiter_characterization (fun _ => PredictResult.ok (9/10))
      true ⟨75, 6, 1, 75⟩ Difficulty.Medium).2 hdis).1.mpr
    ⟨rfl, hrule, by norm_num, by norm_num⟩

/-- C4: with the Probabilistic Policy trained, inference returning
probability `p`, and the low-accuracy safety override not applicable, the
decision is `increase` iff `p > 0.6` and the level is not Hard, otherwise
`decrease` iff `p < 0.4` and the level is not Easy, otherwise
`maintain`. -/
theorem ml_policy_probability_cutpoints (model : Classifier) (m : Metrics)
    (d : Difficulty) (p : ℚ)
    (hok : model (inference_features m) = PredictResult.ok p)
    (hsafe : ¬(m.accuracy < 50 ∧ d ≠ Difficulty.Easy)) :
    (get_next_action ⟨Mode.ml_based, true, model⟩ m d = Action.increase ↔
      (p > 0.6 ∧ d ≠ Difficulty.Hard)) ∧
    (get_next_action ⟨Mode.ml_based, true, model⟩ m d = Action.decrease ↔
      (¬(p > 0.6 ∧ d ≠ Difficulty.Hard) ∧ p < 0.4 ∧ d ≠ Difficulty.Easy)) ∧
    (get_next_action ⟨Mode.ml_based, true, model⟩ m d = Action.maintain ↔
      (¬(p > 0.6 ∧ d ≠ Difficulty.Hard)
        ∧ ¬(p < 0.4 ∧ d ≠ Difficulty.Easy))) := by
  show (get_action_ml_based model m d = _ ↔ _) ∧ (get_action_ml_based model m d = _ ↔ _)
    ∧ (get_action_ml_based model m d = _ ↔ _)
  rw [ml_eq_of_ok _ _ _ _ hok, if_neg hsafe]
  refine ⟨?_, ?_, ?_⟩ <;> split_ifs with h1 h2 <;> simp_all

/-- Witness for C4 at the snapshot `{accuracy: 90, avgResponseTime: 2,
currentStreak: 3, recentAccuracy: 90}` at level Easy with the classifier
returning probability 0.7: the decision is `increase`. -/
theorem ml_policy_probability_cutpoints_witness :
    (fun _ => PredictResult.ok (7/10) : Classifier)
        (inference_features ⟨90, 2, 3, 90⟩) = PredictResult.ok (7/10) ∧
    ¬((Metrics.mk 90 2 3 90).accuracy < 50 ∧ Difficulty.Easy ≠ Difficulty.Easy) ∧
    get_next_action ⟨Mode.ml_based, true, fun _ => PredictResult.ok (7/10)⟩
      ⟨90, 2, 3, 90⟩ Difficulty.Easy = Action.increase :=
  ⟨rfl, by decide,
    (ml_policy_probability_cutpoints (fun _ => PredictResult.ok (7/10))
        ⟨90, 2, 3, 90⟩ Difficulty.Easy (7/10) rfl (by decide)).1.mpr
      ⟨by norm_num, by decide⟩⟩

/-- C5: for every snapshot, classifier and training state, none of the
three policies returns `increase` at level Hard nor `decrease` at level
Easy; moreover the rule-based boundary guard suppresses the action
entirely, falling through to the next check and then to `maintain`. -/
theorem no_action_past_boundary (model : Classifier) (trained : Bool)
    (mode : Mode) (m : Metrics) :
    get_action_rule_based m Difficulty.Hard ≠ Action.increase ∧
    get_action_rule_based m Difficulty.Easy ≠ Action.decrease ∧
    get_next_action ⟨mode, trained, model⟩ m Difficulty.Hard ≠ Action.increase ∧
    get_next_action ⟨mode, trained, model⟩ m Difficulty.Easy ≠ Action.decrease ∧
    hybrid_get_next_action ⟨mode, trained, model⟩ m Difficulty.Hard ≠
      Action.increase ∧
    hybrid_get_next_action ⟨mode, trained, model⟩ m Difficulty.Easy ≠
      Action.decrease ∧
    get_action_rule_based m Difficulty.Hard =
      (if m.accuracy < 60 ∨ m.avg_response_time ≥ 8 then Action.decrease
       else Action.maintain) ∧
    get_action_rule_based m Difficulty.Easy =
      (if m.accuracy ≥ 80 ∧ m.avg_response_time ≤ 5 ∧ m.consecutive_correct ≥ 2
       then Action.increase else Action.maintain) := by
  have hrh : get_action_rule_based m Difficulty.Hard ≠ Action.increase := by
    simp [rule_inc_iff]
  have hre : get_action_rule_based m Difficulty.Easy ≠ Action.decrease := by
    simp [rule_dec_iff]
  have hnh : get_next_action ⟨mode, trained, model⟩ m Difficulty.Hard ≠
      Action.increase := by
    unfold get_next_action
    cases mode with
    | rule_based => exact hrh
    | ml_based =>
      cases trained with
      | false => exact hrh
      | true => exact ml_no_increase_at_hard model m
  have hne : get_next_action ⟨mode, trained, model⟩ m Difficulty.Easy ≠
      Action.decrease := by
    unfold get_next_action
    cases mode with
    | rule_based => exact hre
    | ml_based =>
      cases trained with
      | false => exact hre
      | true => exact ml_no_decrease_at_easy model m
  have hhh : hybrid_get_next_action ⟨mode, trained, model⟩ m Difficulty.Hard ≠
      Action.increase := by
    rcases hybrid_result_cases ⟨mode, trained, model⟩ m Difficulty.Hard with h | h
    · rw [h]; exact hrh
    · rw [h]; exact ml_no_increase_at_hard model m
  have hhe : hybrid_get_next_action ⟨mode, trained, model⟩ m Difficulty.Easy ≠
      Action.decrease := by
    rcases hybrid_result_cases ⟨mode, trained, model⟩ m Difficulty.Easy with h | h
    · rw [h]; exact hre
    · rw [h]; exact ml_no_decrease_at_easy model m
  have hfall₁ : get_action_rule_based m Difficulty.Hard =
      (if m.accuracy < 60 ∨ m.avg_response_time ≥ 8 then Action.decrease
       else Action.maintain) := by
    unfold get_action_rule_based
    split_ifs <;> simp_all
  have hfall₂ : get_action_rule_based m Difficulty.Easy =
      (if m.accuracy ≥ 80 ∧ m.avg_response_time ≤ 5 ∧ m.consecutive_correct ≥ 2
       then Action.increase else Action.maintain) := by
    unfold get_action_rule_based
    split_ifs <;> simp_all
  exact ⟨hrh, hre, hnh, hne, hhh, hhe, hfall₁, hfall₂⟩

/-! Helper lemmas about the tracker fold. -/

lemma runTracker_concat (events : List Response) (r : Response) :
    runTracker (events ++ [r]) = record_response (runTracker events) r := by
  unfold runTracker
  rw [List.foldl_append]
  rfl

lemma record_response_responses (s : TrackerState) (r : Response) :
    (record_response s r).responses = s.responses ++ [r] := by
  unfold record_response
  split_ifs <;> rfl

lemma record_response_correct (s : TrackerState) (r : Response) :
    (record_response s r).correct_count =
      s.correct_count + (if r.is_correct then 1 else 0) := by
  unfold record_response
  split_ifs <;> simp

lemma record_response_incorrect (s : TrackerState) (r : Response) :
    (record_response s r).incorrect_count =
      s.incorrect_count + (if r.is_correct then 0 else 1) := by
  unfold record_response
  split_ifs <;> simp

lemma record_response_time (s : TrackerState) (r : Response) :
    (record_response s r).total_response_time =
      s.total_response_time + r.response_time := by
  unfold record_response
  split_ifs <;> rfl

lemma record_response_consecutive (s : TrackerState) (r : Response) :
    (record_response s r).consecutive_correct =
      if r.is_correct then s.consecutive_correct + 1 else 0 := by
  unfold record_response
  split_ifs <;> rfl

lemma record_response_max (s : TrackerState) (r : Response) :
    (record_response s r).max_consecutive_correct =
      if r.is_correct then
        max s.max_consecutive_correct (s.consecutive_correct + 1)
      else s.max_consecutive_correct := by
  unfold record_response
  split_ifs <;> rfl

lemma runTracker_responses (events : List Response) :
    (runTracker events).responses = events := by
  induction events using List.reverseRecOn with
  | nil => rfl
  | append_singleton es r ih =>
    rw [runTracker_concat, record_response_responses, ih]

lemma runTracker_correct_count (events : List Response) :
    (runTracker events).correct_count =
      (events.filter (fun r => r.is_correct)).length := by
  induction events using List.reverseRecOn with
  | nil => rfl
  | append_singleton es r ih =>
    rw [runTracker_concat, record_response_correct, ih, List.filter_append]
    cases hr : r.is_correct <;> simp [hr]

lemma runTracker_counts (events : List Response) :
    (runTracker events).correct_count + (runTracker events).incorrect_count =
      events.length := by
  induction events using List.reverseRecOn with
  | nil => rfl
  | append_singleton es r ih =>
    rw [runTracker_concat, record_response_correct, record_response_incorrect,
      List.length_append]
    cases hr : r.is_correct <;> simp <;> omega

lemma runTracker_time (events : List Response) :
    (runTracker events).total_response_time =
      (events.map (fun r => r.response_time)).sum := by
  induction events using List.reverseRecOn with
  | nil => rfl
  | append_singleton es r ih =>
    rw [runTracker_concat, record_response_time, ih, List.map_append,
      List.sum_append]
    simp

lemma trailing_streak_concat (events : List Response) (r : Response) :
    trailing_streak (events ++ [r]) =
      if r.is_correct then trailing_streak events + 1 else 0 := by
  unfold trailing_streak
  rw [List.reverse_append]
  simp [count_leading_correct]

lemma runTracker_consecutive (events : List Response) :
    (runTracker events).consecutive_correct = trailing_streak events := by
  induction events using List.reverseRecOn with
  | nil => rfl
  | append_singleton es r ih =>
    rw [runTracker_concat, record_response_consecutive, ih,
      trailing_streak_concat]

lemma runTracker_streak_le_max (events : List Response) :
    (runTracker events).consecutive_correct ≤
      (runTracker events).max_consecutive_correct := by
  induction events using List.reverseRecOn with
  | nil => exact le_refl 0
  | append_singleton es r ih =>
    rw [runTracker_concat, record_response_consecutive, record_response_max]
    cases hr : r.is_correct <;> simp [Nat.le_max_right]

/-! Helper lemmas about the snapshot computation. -/

lemma snapshot_empty (s : TrackerState) (h : s.responses.length = 0) :
    get_current_metrics s = ⟨0, 0, 0, 0, 0, 0, 0, 0, Trend.stable⟩ := by
  unfold get_current_metrics
  rw [if_pos h]

lemma snapshot_total (s : TrackerState) (h : ¬s.responses.length = 0) :
    (get_current_metrics s).total_questions = s.responses.length := by
  unfold get_current_metrics
  rw [if_neg h]

lemma snapshot_correct (s : TrackerState) (h : ¬s.responses.length = 0) :
    (get_current_metrics s).correct_count = s.correct_count := by
  unfold get_current_metrics
  rw [if_neg h]

lemma snapshot_incorrect (s : TrackerState) (h : ¬s.responses.length = 0) :
    (get_current_metrics s).incorrect_count = s.incorrect_count := by
  unfold get_current_metrics
  rw [if_neg h]

lemma snapshot_accuracy (s : TrackerState) (h : ¬s.responses.length = 0) :
    (get_current_metrics s).accuracy =
      (s.correct_count : ℚ) / s.responses.length * 100 := by
  unfold get_current_metrics
  rw [if_neg h]

lemma snapshot_avg (s : TrackerState) (h : ¬s.responses.length = 0) :
    (get_current_metrics s).avg_response_time =
      s.total_response_time / s.responses.length := by
  unfold get_current_metrics
  rw [if_neg h]

lemma snapshot_consecutive (s : TrackerState) (h : ¬s.responses.length = 0) :
    (get_current_metrics s).consecutive_correct = s.consecutive_correct := by
  unfold get_current_metrics
  rw [if_neg h]

lemma snapshot_max (s : TrackerState) (h : ¬s.responses.length = 0) :
    (get_current_metrics s).max_streak = s.max_consecutive_correct := by
  unfold get_current_metrics
  rw [if_neg h]

lemma snapshot_recent_accuracy (s : TrackerState)
    (h : ¬s.responses.length = 0) :
    (get_current_metrics s).recent_accuracy =
      (if (if 3 ≤ s.responses.length then
            s.responses.drop (s.responses.length - 3)
          else s.responses) ≠ [] then
        (((if 3 ≤ s.responses.length then
              s.responses.drop (s.responses.length - 3)
            else s.responses).filter (fun r => r.is_correct)).length : ℚ) /
          ((if 3 ≤ s.responses.length then
              s.responses.drop (s.responses.length - 3)
            else s.responses).length) * 100
      else 0) := by
  unfold get_current_metrics
  rw [if_neg h]

lemma snapshot_trend (s : TrackerState) (h : ¬s.responses.length = 0) :
    (get_current_metrics s).response_time_trend =
      (if 3 ≤ s.responses.length then
        (if ((s.responses.take (s.responses.length - 3)).map
              (fun r => r.response_time)) ≠ [] then
          (if ((s.responses.drop (s.responses.length - 3)).map
                  (fun r => r.response_time)).sum /
                (((s.responses.drop (s.responses.length - 3)).map
                  (fun r => r.response_time)).length : ℚ) >
              ((s.responses.take (s.responses.length - 3)).map
                  (fun r => r.response_time)).sum /
                (((s.responses.take (s.responses.length - 3)).map
                  (fun r => r.response_time)).length : ℚ) * 1.2 then
            Trend.slowing
          else if ((s.responses.drop (s.responses.length - 3)).map
                  (fun r => r.response_time)).sum /
                (((s.responses.drop (s.responses.length - 3)).map
                  (fun r => r.response_time)).length : ℚ) <
              ((s.responses.take (s.responses.length - 3)).map
                  (fun r => r.response_time)).sum /
                (((s.responses.take (s.responses.length - 3)).map
                  (fun r => r.response_time)).length : ℚ) * 0.8 then
            Trend.improving
          else Trend.stable)
        else Trend.stable)
      else Trend.stable) := by
  unfold get_current_metrics
  rw [if_neg h]

/-- C6: for every event log, the snapshot satisfies
`correctCount + incorrectCount = totalAnswered` and
`currentStreak ≤ maxStreak`, and it is a pure function of the log:
identical logs produce identical snapshots. -/
theorem tracker_snapshot_invariants (events : List Response) :
    (get_current_metrics (runTracker events)).correct_count +
        (get_current_metrics (runTracker events)).incorrect_count =
      (get_current_metrics (runTracker events)).total_questions ∧
    (get_current_metrics (runTracker events)).consecutive_correct ≤
      (get_current_metrics (runTracker events)).max_streak ∧
    ∀ events₂ : List Response, events₂ = events →
      get_current_metrics (runTracker events₂) =
        get_current_metrics (runTracker events) := by
  by_cases h : (runTracker events).responses.length = 0
  · rw [snapshot_empty _ h]
    exact ⟨rfl, le_refl 0, fun _ he => by rw [he, snapshot_empty _ h]⟩
  · refine ⟨?_, ?_, fun _ he => by rw [he]⟩
    · rw [snapshot_correct _ h, snapshot_incorrect _ h, snapshot_total _ h,
        runTracker_responses]
      exact runTracker_counts events
    · rw [snapshot_consecutive _ h, snapshot_max _ h]
      exact runTracker_streak_le_max events

/-- Witness for C6 at the one-event log. -/
theorem tracker_snapshot_invariants_witness :
    get_current_metrics (runTracker [⟨true, 2, Difficulty.Easy⟩]) =
      get_current_metrics (runTracker [⟨true, 2, Difficulty.Easy⟩]) :=
  (tracker_snapshot_invariants [⟨true, 2, Difficulty.Easy⟩]).2.2
    [⟨true, 2, Difficulty.Easy⟩] rfl

lemma trend_stable_of_short (events : List Response)
    (h : events.length ≤ 3) :
    (get_current_metrics (runTracker events)).response_time_trend =
      Trend.stable := by
  by_cases h0 : (runTracker events).responses.length = 0
  · rw [snapshot_empty _ h0]
  · rw [snapshot_trend _ h0, runTracker_responses]
    by_cases h3 : 3 ≤ events.length
    · have hlen : events.length = 3 := le_antisymm h h3
      rw [if_pos h3, if_neg]
      simp [hlen]
    · rw [if_neg h3]

lemma trend_formula_of_long (events : List Response)
    (h : 3 < events.length) :
    (get_current_metrics (runTracker events)).response_time_trend =
      (if ((events.drop (events.length - 3)).map
            (fun r => r.response_time)).sum / 3 >
          (((events.take (events.length - 3)).map
            (fun r => r.response_time)).sum /
            ((events.length - 3 : ℕ) : ℚ)) * 1.2 then Trend.slowing
       else if ((events.drop (events.length - 3)).map
            (fun r => r.response_time)).sum / 3 <
          (((events.take (events.length - 3)).map
            (fun r => r.response_time)).sum /
            ((events.length - 3 : ℕ) : ℚ)) * 0.8 then Trend.improving
       else Trend.stable) := by
  have h0 : ¬(runTracker events).responses.length = 0 := by
    rw [runTracker_responses]; omega
  rw [snapshot_trend _ h0, runTracker_responses]
  have h3 : 3 ≤ events.length := le_of_lt h
  rw [if_pos h3, if_pos]
  · have hdroplen :
        (((events.drop (events.length - 3)).map
          (fun r => r.response_time)).length : ℚ) = 3 := by
      rw [List.length_map, List.length_drop]
      norm_cast
      omega
    have htakelen :
        (((events.take (events.length - 3)).map
          (fun r => r.response_time)).length : ℚ) =
          ((events.length - 3 : ℕ) : ℚ) := by
      rw [List.length_map, List.length_take]
      norm_cast
      omega
    rw [hdroplen, htakelen]
  · rw [Ne, List.map_eq_nil_iff, ← List.length_eq_zero, List.length_take]
    omega

/-- C10: the latency trend is `stable` for logs of at most 3 events (and
the empty log yields the all-zero snapshot); for longer logs it is
`slowing` exactly when the mean response time of the last 3 events exceeds
1.2 times the mean of all earlier events, `improving` exactly when it is
below 0.8 times that mean, and `stable` otherwise.  Response times are
nonnegative, per the data model. -/
theorem tracker_trend_classification (events : List Response)
    (hnn : ∀ r ∈ events, 0 ≤ r.response_time) :
    get_current_metrics (runTracker ([] : List Response)) =
      ⟨0, 0, 0, 0, 0, 0, 0, 0, Trend.stable⟩ ∧
    ((get_current_metrics (runTracker events)).response_time_trend =
        Trend.slowing ↔
      3 < events.length ∧
        ((events.drop (events.length - 3)).map
            (fun r => r.response_time)).sum / 3 >
          (((events.take (events.length - 3)).map
            (fun r => r.response_time)).sum /
            ((events.length - 3 : ℕ) : ℚ)) * 1.2) ∧
    ((get_current_metrics (runTracker events)).response_time_trend =
        Trend.improving ↔
      3 < events.length ∧
        ((events.drop (events.length - 3)).map
            (fun r => r.response_time)).sum / 3 <
          (((events.take (events.length - 3)).map
            (fun r => r.response_time)).sum /
            ((events.length - 3 : ℕ) : ℚ)) * 0.8) ∧
    ((get_current_metrics (runTracker events)).response_time_trend =
        Trend.stable ↔
      (events.length ≤ 3 ∨
        (¬(((events.drop (events.length - 3)).map
            (fun r => r.response_time)).sum / 3 >
          (((events.take (events.length - 3)).map
            (fun r => r.response_time)).sum /
            ((events.length - 3 : ℕ) : ℚ)) * 1.2) ∧
         ¬(((events.drop (events.length - 3)).map
            (fun r => r.response_time)).sum / 3 <
          (((events.take (events.length - 3)).map
            (fun r => r.response_time)).sum /
            ((events.length - 3 : ℕ) : ℚ)) * 0.8)))) := by
  refine ⟨rfl, ?_⟩
  by_cases h3 : 3 < events.length
  · rw [trend_formula_of_long events h3]
    have holder : 0 ≤ ((events.take (events.length - 3)).map
        (fun r => r.response_time)).sum /
          ((events.length - 3 : ℕ) : ℚ) := by
      apply div_nonneg
      · apply List.sum_nonneg
        intro x hx
        rcases List.mem_map.mp hx with ⟨r, hr, hrx⟩
        rw [← hrx]
        exact hnn r (List.take_subset _ _ hr)
      · positivity
    split_ifs with hA hB
    · refine ⟨iff_of_true rfl ⟨h3, hA⟩, iff_of_false (by simp) ?_,
        iff_of_false (by simp) ?_⟩
      · rintro ⟨-, hB⟩
        nlinarith
      · rintro (hle | ⟨hnA, -⟩)
        · omega
        · exact hnA hA
    · refine ⟨iff_of_false (by simp) ?_, iff_of_true rfl ⟨h3, hB⟩,
        iff_of_false (by simp) ?_⟩
      · rintro ⟨-, hA2⟩
        exact hA hA2
      · rintro (hle | ⟨-, hnB⟩)
        · omega
        · exact hnB hB
    · refine ⟨iff_of_false (by simp) ?_, iff_of_false (by simp) ?_,
        iff_of_true rfl (Or.inr ⟨hA, hB⟩)⟩
      · rintro ⟨-, h⟩
        exact hA h
      · rintro ⟨-, h⟩
        exact hB h
  · have hst := trend_stable_of_short events (by omega)
    rw [hst]
    refine ⟨iff_of_false (by simp) ?_, iff_of_false (by simp) ?_,
      iff_of_true rfl (Or.inl (by omega))⟩
    · rintro ⟨h, -⟩
      omega
    · rintro ⟨h, -⟩
      omega

/-- Witness for C10 at the 4-event log with times `[1, 9, 9, 9]`: the last
3 events average 9, the earlier events average 1, and the trend is
`slowing`. -/
theorem tracker_trend_classification_witness :
    (∀ r ∈ [(⟨true, 1, Difficulty.Easy⟩ : Response),
        ⟨true, 9, Difficulty.Easy⟩, ⟨true, 9, Difficulty.Easy⟩,
        ⟨true, 9, Difficulty.Easy⟩], 0 ≤ r.response_time) ∧
    (get_current_metrics (runTracker [(⟨true, 1, Difficulty.Easy⟩ : Response),
        ⟨true, 9, Difficulty.Easy⟩, ⟨true, 9, Difficulty.Easy⟩,
        ⟨true, 9, Difficulty.Easy⟩])).response_time_trend = Trend.slowing := by
  have hnn : ∀ r ∈ [(⟨true, 1, Difficulty.Easy⟩ : Response),
      ⟨true, 9, Difficulty.Easy⟩, ⟨true, 9, Difficulty.Easy⟩,
      ⟨true, 9, Difficulty.Easy⟩], 0 ≤ r.response_time := by
    intro r hr
    fin_cases hr <;> norm_num
  refine ⟨hnn, ((tracker_trend_classification _ hnn).2.1).mpr
    ⟨by norm_num, ?_⟩⟩
  norm_num

/-! Helper lemmas about the recent window. -/

lemma recent_window_eq (l : List Response) :
    (if 3 ≤ l.length then l.drop (l.length - 3) else l) =
      l.drop (l.length - 3) := by
  by_cases h : 3 ≤ l.length
  · rw [if_pos h]
  · rw [if_neg h]
    have h0 : l.length - 3 = 0 := by omega
    rw [h0, List.drop_zero]

lemma length_drop_last3 (l : List Response) :
    (l.drop (l.length - 3)).length = min 3 l.length := by
  rw [List.length_drop]
  omega

lemma drop_last3_ne_nil (l : List Response) (h : l ≠ []) :
    l.drop (l.length - 3) ≠ [] := by
  rw [Ne, ← List.length_eq_zero, length_drop_last3]
  have : l.length ≠ 0 := by rwa [Ne, List.length_eq_zero]
  omega

/-- C7 (amended): components 1, 3 and 4 of the inference-time feature
vector (accuracy, trailing streak, recent accuracy) are the same function
of the event log as the training-time definition; the second component is
not: at inference it is the average response time over ALL events, while
training uses the average over the last `min(3, N)` events. -/
theorem inference_vs_training_features (events : List Response) :
    (features_at_inference events).getD 0 0 =
      (features_at_training events).getD 0 0 ∧
    (features_at_inference events).getD 2 0 =
      (features_at_training events).getD 2 0 ∧
    (features_at_inference events).getD 3 0 =
      (features_at_training events).getD 3 0 ∧
    (features_at_inference events).getD 1 0 =
      (if events.length = 0 then 0
       else (events.map (fun r => r.response_time)).sum / events.length) ∧
    (features_at_training events).getD 1 0 =
      (if events.length = 0 then 0
       else ((events.drop (events.length - 3)).map
          (fun r => r.response_time)).sum /
         ((min 3 events.length : ℕ) : ℚ)) := by
  by_cases h : events = []
  · subst h
    exact ⟨rfl, rfl, rfl, rfl, rfl⟩
  · have h0 : ¬(runTracker events).responses.length = 0 := by
      rw [runTracker_responses, List.length_eq_zero]
      exact h
    have hlen0 : ¬events.length = 0 := fun hc => h (List.length_eq_zero.mp hc)
    refine ⟨?_, ?_, ?_, ?_, ?_⟩
    · rw [show (features_at_inference events).getD 0 0 =
          (get_current_metrics (runTracker events)).accuracy from rfl,
        snapshot_accuracy _ h0, runTracker_correct_count, runTracker_responses,
        show (features_at_training events).getD 0 0 =
          (if 0 < events.length then
            ((events.filter (fun r => r.is_correct)).length : ℚ) /
              events.length * 100
          else 0) from rfl,
        if_pos (by omega)]
    · rw [show (features_at_inference events).getD 2 0 =
          ((get_current_metrics (runTracker events)).consecutive_correct : ℚ)
          from rfl,
        snapshot_consecutive _ h0, runTracker_consecutive]
      rfl
    · rw [show (features_at_inference events).getD 3 0 =
          (get_current_metrics (runTracker events)).recent_accuracy from rfl,
        snapshot_recent_accuracy _ h0, runTracker_responses, recent_window_eq,
        if_pos (drop_last3_ne_nil events h),
        show (features_at_training events).getD 3 0 =
          (if 0 < (events.drop (events.length - 3)).length then
            (((events.drop (events.length - 3)).filter
                (fun r => r.is_correct)).length : ℚ) /
              ((events.drop (events.length - 3)).length) * 100
          else 0) from rfl,
        if_pos]
      rw [length_drop_last3]
      omega
    · rw [show (features_at_inference events).getD 1 0 =
          (get_current_metrics (runTracker events)).avg_response_time
          from rfl,
        snapshot_avg _ h0, runTracker_time, runTracker_responses,
        if_neg hlen0]
    · rw [show (features_at_training events).getD 1 0 =
          (if ((events.drop (events.length - 3)).map
              (fun r => r.response_time)) ≠ [] then
            ((events.drop (events.length - 3)).map
              (fun r => r.response_time)).sum /
              ((((events.drop (events.length - 3)).map
                (fun r => r.response_time)).length : ℕ) : ℚ)
          else 0) from rfl,
        if_pos (fun hc =>
          (drop_last3_ne_nil events h) (List.map_eq_nil_iff.mp hc)),
        if_neg hlen0, List.length_map, length_drop_last3]

/-- Counterexample to C7: on the log with response times `[10, 1, 1, 1]`
(all answers correct) the second feature at inference is the all-events
average `13/4`, while the training-time definition gives the last-3
average `1`. -/
theorem inference_vs_training_features_counterexample :
    (features_at_inference [(⟨true, 10, Difficulty.Easy⟩ : Response),
        ⟨true, 1, Difficulty.Easy⟩, ⟨true, 1, Difficulty.Easy⟩,
        ⟨true, 1, Difficulty.Easy⟩]).getD 1 0 = 13/4 ∧
    (features_at_training [(⟨true, 10, Difficulty.Easy⟩ : Response),
        ⟨true, 1, Difficulty.Easy⟩, ⟨true, 1, Difficulty.Easy⟩,
        ⟨true, 1, Difficulty.Easy⟩]).getD 1 0 = 1 ∧
    (features_at_inference [(⟨true, 10, Difficulty.Easy⟩ : Response),
        ⟨true, 1, Difficulty.Easy⟩, ⟨true, 1, Difficulty.Easy⟩,
        ⟨true, 1, Difficulty.Easy⟩]).getD 1 0 ≠
      (features_at_training [(⟨true, 10, Difficulty.Easy⟩ : Response),
        ⟨true, 1, Difficulty.Easy⟩, ⟨true, 1, Difficulty.Easy⟩,
        ⟨true, 1, Difficulty.Easy⟩]).getD 1 0 := by
  have h0 : ¬(runTracker [(⟨true, 10, Difficulty.Easy⟩ : Response),
      ⟨true, 1, Difficulty.Easy⟩, ⟨true, 1, Difficulty.Easy⟩,
      ⟨true, 1, Difficulty.Easy⟩]).responses.length = 0 := by
    rw [runTracker_responses]
    simp
  have h1 : (features_at_inference [(⟨true, 10, Difficulty.Easy⟩ : Response),
      ⟨true, 1, Difficulty.Easy⟩, ⟨true, 1, Difficulty.Easy⟩,
      ⟨true, 1, Difficulty.Easy⟩]).getD 1 0 = 13/4 := by
    rw [show (features_at_inference [(⟨true, 10, Difficulty.Easy⟩ : Response),
        ⟨true, 1, Difficulty.Easy⟩, ⟨true, 1, Difficulty.Easy⟩,
        ⟨true, 1, Difficulty.Easy⟩]).getD 1 0 =
      (get_current_metrics (runTracker [(⟨true, 10, Difficulty.Easy⟩ : Response),
        ⟨true, 1, Difficulty.Easy⟩, ⟨true, 1, Difficulty.Easy⟩,
        ⟨true, 1, Difficulty.Easy⟩])).avg_response_time from rfl,
      snapshot_avg _ h0, runTracker_time, runTracker_responses]
    norm_num
  have h2 : (features_at_training [(⟨true, 10, Difficulty.Easy⟩ : Response),
      ⟨true, 1, Difficulty.Easy⟩, ⟨true, 1, Difficulty.Easy⟩,
      ⟨true, 1, Difficulty.Easy⟩]).getD 1 0 = 1 := by
    norm_num [features_at_training]
    simp
  exact ⟨h1, h2, by rw [h1, h2]; norm_num⟩

lemma features_training_eq_aggregator (prior : List Response) :
    features_at_training prior = aggregator_rule_features prior := by
  rcases eq_or_ne prior [] with h | h
  · subst h
    rfl
  · have h0 : ¬prior.length = 0 := fun hc => h (List.length_eq_zero.mp hc)
    have hsub : prior.length - min 3 prior.length = prior.length - 3 := by
      omega
    have hmin : 0 < min 3 prior.length := by omega
    have hdlen : (prior.drop (prior.length - 3)).length = min 3 prior.length :=
      length_drop_last3 prior
    simp only [features_at_training, aggregator_rule_features]
    rw [hsub, runTracker_consecutive, List.length_map, hdlen,
      if_pos (fun hc =>
        (drop_last3_ne_nil prior h) (List.map_eq_nil_iff.mp hc)),
      if_pos hmin, if_pos hmin]

/-- C9: for every session, the trainer emits one example per position
`i ≥ 2` (0-indexed): element `j` of the output pairs the features of the
prefix `[0, j+2)` — computed with the Metrics Aggregator's recent-window
(`min(3, N)` most-recent events) and trailing-streak rules — with label 1
iff event `j+2` was answered correctly; the output has `length - 2`
elements, and sessions with fewer than 3 events contribute none. -/
theorem trainer_example_emission (responses : List Response) (j : ℕ) :
    (extract_features_session responses).length = responses.length - 2 ∧
    (3 ≤ responses.length ∨ extract_features_session responses = []) ∧
    (extract_features_session responses).getD j ([], 0) =
      (if j < responses.length - 2 then
        (aggregator_rule_features (responses.take (j + 2)),
         if (responses.getD (j + 2) default).is_correct then 1 else 0)
       else ([], 0)) := by
  unfold extract_features_session
  by_cases h3 : responses.length < 3
  · rw [if_pos h3]
    refine ⟨by simp; omega, Or.inr rfl, ?_⟩
    rw [if_neg (by omega)]
    rfl
  · rw [if_neg h3]
    refine ⟨by simp, Or.inl (by omega), ?_⟩
    rw [List.getD_eq_getElem?_getD, List.getElem?_map]
    by_cases hj : j < responses.length - 2
    · rw [List.getElem?_range' _ _ hj]
      rw [if_pos hj]
      simp only [Option.map_some', Option.getD_some]
      rw [features_training_eq_aggregator]
      have : 2 + 1 * j = j + 2 := by omega
      rw [this]
    · rw [if_neg hj]
      have : (List.range' 2 (responses.length - 2))[j]? = none := by
        rw [List.getElem?_eq_none]
        rw [List.length_range']
        omega
      rw [this]
      rfl

/-- C8 (code bug): `train_model` returns `False` on empty data, but on
every non-empty `training_data` the row expression
`d['features'].values()` leaves `dict_values` objects in the array, so
`model.fit` raises a `TypeError` before any artifact is saved — training
never succeeds. -/
theorem train_model_raises_on_nonempty (d : TrainingExample)
    (ds : List TrainingExample) :
    train_model [] = Except.ok false ∧
    train_model (d :: ds) = Except.error
      "TypeError: float() argument must be a string or a real number, not dict_values" := by
  refine ⟨rfl, ?_⟩
  simp [train_model, logistic_fit, NpCell.coercible]

end AdaptiveProto
